import Mathlib

/-!
Shallow embedding of the plaid-rs client library (src/client.rs, src/errors.rs
and the endpoint modules), together with theorems settling the frozen claims
about its request/response/error dispatch core.

Modelling conventions:
* JSON values are the inductive `Plaid.Json`; serde-derived serializers are
  embedded as functions producing association lists of fields in declaration
  order, and serde-derived deserializers as partial functions `Json → Option _`.
* Rust `Result<T, E>` is `Except E T`; a Rust panic (`unwrap` / `expect` /
  `panic!`) is modelled by returning `none` in an `Option`-valued embedding.
* `reqwest::StatusCode` is a `Nat`; `reqwest::Error` is an opaque payload
  carrying a message. The network itself is an oracle: the outcome of
  `client.post(..).json(req).send().await` is passed in as an explicit
  `Except ReqwestError HttpResponse` argument.
* Machine integers that only flow through serialization (`i32`, `u8`) are
  modelled as `Int` / `Nat`; no arithmetic is performed on them.
-/

namespace Plaid

/-- JSON values, as produced by serde_json: null, booleans, numbers, strings,
arrays and objects (an object is a field list in serialization order). -/
inductive Json where
  | null
  | bool (b : Bool)
  | num (n : Int)
  | str (s : String)
  | arr (elems : List Json)
  | obj (fields : List (String × Json))

/-- Field names of a serialized JSON object (association-list keys). -/
def keysOf (kvs : List (String × Json)) : List String :=
  kvs.map Prod.fst

/-- Environment, from src/client.rs: the three Plaid deployment targets. -/
inductive Environment where
  | sandbox
  | development
  | production
deriving DecidableEq

/-- Client, from src/client.rs. The `reqwest::Client` transport handle carries
no observable state for the claims (the network is an explicit oracle), so the
embedded record holds the three data fields of the Rust struct. -/
structure Client where
  client_id : String
  secret : String
  environment : Environment
deriving DecidableEq

/-- ErrorResponse, from src/errors.rs: the fixed wire schema of a Plaid API
error body. -/
structure ErrorResponse where
  request_id : String
  error_type : String
  error_code : String
  error_message : String
  display_message : Option String
deriving DecidableEq

/-- PlaidError, from src/errors.rs: the typed API error surfaced to callers,
an ErrorResponse augmented with the observed HTTP status code. -/
structure PlaidError where
  error_type : String
  error_code : String
  error_message : String
  display_message : Option String
  request_id : String
  status_code : Nat
deriving DecidableEq

/-- Opaque model of `reqwest::Error`: a transport or decode failure payload. -/
structure ReqwestError where
  msg : String
deriving DecidableEq

/-- Error, from src/errors.rs: either an error returned by the Plaid API or an
error from the transport layer. -/
inductive Error where
  | plaid (e : PlaidError)
  | request (e : ReqwestError)
deriving DecidableEq

/-- An HTTP response as observed by send_request: status code and JSON body. -/
structure HttpResponse where
  status : Nat
  body : Json

/-- Characters of the plain relative endpoint paths used by this library:
ASCII letters, digits, underscores and slashes. -/
def isPlainPathChar (c : Char) : Bool :=
  c.isAlpha || c.isDigit || c = '_' || c = '/'

/-- A plain relative path reference: nonempty, not beginning with a slash,
made of plain path characters. -/
def isPlainRelPath (s : String) : Bool :=
  match s.data with
  | [] => false
  | c :: cs => isPlainPathChar c && !(c = '/') && cs.all isPlainPathChar

/-- Model of rust-url `Url::join` on the bases produced by `get_host`,
restricted to the reference classes this development exercises: a plain
relative path resolves by appending it to the base, and every other
reference — in particular the scheme-relative reference with an empty host,
such as the string of two slashes, which rust-url rejects with an empty-host
error — is out of the modelled success class and maps to `none`. -/
def urlJoin (base url : String) : Option String :=
  if isPlainRelPath url then some (base ++ url) else none

/-- get_host, from src/client.rs: the fixed base URL of each environment.
`Url::parse` of the three literals always succeeds; the embedded result is
the URL's string form. -/
def Client.get_host (c : Client) : String :=
  match c.environment with
  | Environment.sandbox => "https://sandbox.plaid.com/"
  | Environment.development => "https://development.plaid.com/"
  | Environment.production => "https://production.plaid.com/"

/-- Deserialize a JSON string, as serde does for a `String` field. -/
def decodeString : Json → Option String
  | Json.str s => some s
  | _ => none

/-- Deserialize an `Option<String>` field from its (possibly absent) JSON
value: an absent or null field is `None`, a string is `Some`. -/
def decodeOptString : Option Json → Option (Option String)
  | none => some none
  | some Json.null => some none
  | some (Json.str s) => some (some s)
  | some _ => none

/-- The serde-derived `Deserialize` for ErrorResponse (src/errors.rs): the
body must be an object; the four `String` fields are required strings; the
`Option<String>` field may be absent or null. -/
def ErrorResponse.deserialize (j : Json) : Option ErrorResponse :=
  match j with
  | Json.obj kvs => do
      let request_id ← (kvs.lookup "request_id").bind decodeString
      let error_type ← (kvs.lookup "error_type").bind decodeString
      let error_code ← (kvs.lookup "error_code").bind decodeString
      let error_message ← (kvs.lookup "error_message").bind decodeString
      let display_message ← decodeOptString (kvs.lookup "display_message")
      some { request_id, error_type, error_code, error_message, display_message }
  | _ => none

/-- The `reqwest::Error` produced when `resp.json().await` fails to decode a
response body. -/
def decodeFailure : ReqwestError :=
  { msg := "error decoding response body" }

/-- send_request, from src/client.rs. The join of the base host with `url` is
unwrapped: a failed join is the panic, modelled as `none`. On transport
failure the `?` after `send().await` converts the `reqwest::Error` via
`From` into `Error.request`. On status 200 the body is decoded as `U` by the
caller-supplied serde instance `decodeU`; on any other status the body is
decoded as `ErrorResponse` and wrapped, together with the observed status
code, into `Error.plaid`. Either decode failing is itself a `reqwest::Error`
propagated by `?`. -/
def Client.send_request {T U : Type} (c : Client) (url : String) (_req : T)
    (transport : Except ReqwestError HttpResponse)
    (decodeU : Json → Option U) : Option (Except Error U) :=
  match urlJoin c.get_host url with
  | none => none
  | some _full_url =>
    match transport with
    | Except.error e => some (Except.error (Error.request e))
    | Except.ok resp =>
      if resp.status = 200 then
        match decodeU resp.body with
        | some u => some (Except.ok u)
        | none => some (Except.error (Error.request decodeFailure))
      else
        match ErrorResponse.deserialize resp.body with
        | some err_resp =>
            some (Except.error (Error.plaid
              { request_id := err_resp.request_id
                error_type := err_resp.error_type
                error_code := err_resp.error_code
                error_message := err_resp.error_message
                display_message := err_resp.display_message
                status_code := resp.status }))
        | none => some (Except.error (Error.request decodeFailure))

/-- State-passing form of send_request: the Rust method borrows the client
immutably (`&self`) and assigns none of its fields, so the embedding returns
the result together with the client state exactly as the call leaves each
field. -/
def Client.send_request_st {T U : Type} (c : Client) (url : String) (req : T)
    (transport : Except ReqwestError HttpResponse)
    (decodeU : Json → Option U) : Option (Except Error U) × Client :=
  (c.send_request url req transport decodeU,
   { client_id := c.client_id
     secret := c.secret
     environment := c.environment })

/-- Serialize a list of strings as a JSON array, as serde does for a slice of
string slices. -/
def serializeStrList (xs : List String) : Json :=
  Json.arr (xs.map Json.str)

/-- Serialize an `Option` of a string list without a skip attribute: `None`
becomes an explicit null. -/
def serializeOptStrList : Option (List String) → Json
  | none => Json.null
  | some xs => serializeStrList xs

/-- Serialize an `Option<String>` without a skip attribute: `None` becomes an
explicit null. -/
def serializeOptStr : Option String → Json
  | none => Json.null
  | some s => Json.str s

/-- A field annotated `skip_serializing_if = "Option::is_none"`: a `None`
value contributes no field at all; a `Some` value contributes one field. -/
def skipNoneField {A : Type} (name : String) (f : A → Json) :
    Option A → List (String × Json)
  | none => []
  | some a => [(name, f a)]

/-- A field annotated `skip_serializing_if = "Vec::is_empty"`: an empty list
contributes no field at all. -/
def skipEmptyField (name : String) (xs : List String) : List (String × Json) :=
  if xs.isEmpty then [] else [(name, serializeStrList xs)]

/-- GetCategoriesRequest, from src/categories.rs: a struct with no fields at
all, serialized as the empty JSON object. -/
structure GetCategoriesRequest where

def GetCategoriesRequest.toKVs (_r : GetCategoriesRequest) :
    List (String × Json) :=
  []

/-- GetBalancesOptions, from src/accounts.rs. -/
structure GetBalancesOptions where
  account_ids : Option (List String)

def GetBalancesOptions.toKVs (o : GetBalancesOptions) : List (String × Json) :=
  [("account_ids", serializeOptStrList o.account_ids)]

/-- GetBalancesRequest, from src/accounts.rs. -/
structure GetBalancesRequest where
  client_id : String
  secret : String
  access_token : String
  options : Option GetBalancesOptions

def GetBalancesRequest.toKVs (r : GetBalancesRequest) : List (String × Json) :=
  [("client_id", Json.str r.client_id),
   ("secret", Json.str r.secret),
   ("access_token", Json.str r.access_token)]
  ++ skipNoneField "options" (fun o => Json.obj o.toKVs) r.options

/-- GetAccountsOptions, from src/accounts.rs. -/
structure GetAccountsOptions where
  account_ids : Option (List String)

def GetAccountsOptions.toKVs (o : GetAccountsOptions) : List (String × Json) :=
  [("account_ids", serializeOptStrList o.account_ids)]

/-- GetAccountsRequest, from src/accounts.rs. -/
structure GetAccountsRequest where
  client_id : String
  secret : String
  access_token : String
  options : Option GetAccountsOptions

def GetAccountsRequest.toKVs (r : GetAccountsRequest) : List (String × Json) :=
  [("client_id", Json.str r.client_id),
   ("secret", Json.str r.secret),
   ("access_token", Json.str r.access_token)]
  ++ skipNoneField "options" (fun o => Json.obj o.toKVs) r.options

/-- GetAuthOptions, from src/auth.rs. -/
structure GetAuthOptions where
  account_ids : Option (List String)

def GetAuthOptions.toKVs (o : GetAuthOptions) : List (String × Json) :=
  [("account_ids", serializeOptStrList o.account_ids)]

/-- GetAuthRequest, from src/auth.rs. -/
structure GetAuthRequest where
  client_id : String
  secret : String
  access_token : String
  options : Option GetAuthOptions

def GetAuthRequest.toKVs (r : GetAuthRequest) : List (String × Json) :=
  [("client_id", Json.str r.client_id),
   ("secret", Json.str r.secret),
   ("access_token", Json.str r.access_token)]
  ++ skipNoneField "options" (fun o => Json.obj o.toKVs) r.options

/-- GetDepositSwitchRequest, from src/deposit_switch.rs. -/
structure GetDepositSwitchRequest where
  client_id : String
  secret : String
  deposit_switch_id : String

def GetDepositSwitchRequest.toKVs (r : GetDepositSwitchRequest) :
    List (String × Json) :=
  [("client_id", Json.str r.client_id),
   ("secret", Json.str r.secret),
   ("deposit_switch_id", Json.str r.deposit_switch_id)]

/-- CreateDepositSwitchRequest, from src/deposit_switch.rs. -/
structure CreateDepositSwitchRequest where
  client_id : String
  secret : String
  target_access_token : String
  target_account_id : String

def CreateDepositSwitchRequest.toKVs (r : CreateDepositSwitchRequest) :
    List (String × Json) :=
  [("client_id", Json.str r.client_id),
   ("secret", Json.str r.secret),
   ("target_access_token", Json.str r.target_access_token),
   ("target_account_id", Json.str r.target_account_id)]

/-- GetHoldingsOptions, from src/holdings.rs. -/
structure GetHoldingsOptions where
  account_ids : Option (List String)

def GetHoldingsOptions.toKVs (o : GetHoldingsOptions) : List (String × Json) :=
  [("account_ids", serializeOptStrList o.account_ids)]

/-- GetHoldingsRequest, from src/holdings.rs. -/
structure GetHoldingsRequest where
  client_id : String
  secret : String
  access_token : String
  options : Option GetHoldingsOptions

def GetHoldingsRequest.toKVs (r : GetHoldingsRequest) : List (String × Json) :=
  [("client_id", Json.str r.client_id),
   ("secret", Json.str r.secret),
   ("access_token", Json.str r.access_token)]
  ++ skipNoneField "options" (fun o => Json.obj o.toKVs) r.options

/-- GetIdentityOptions, from src/identity.rs. -/
structure GetIdentityOptions where
  account_ids : Option (List String)

def GetIdentityOptions.toKVs (o : GetIdentityOptions) : List (String × Json) :=
  [("account_ids", serializeOptStrList o.account_ids)]

/-- GetIdentityRequest, from src/identity.rs. -/
structure GetIdentityRequest where
  client_id : String
  secret : String
  access_token : String
  options : Option GetIdentityOptions

def GetIdentityRequest.toKVs (r : GetIdentityRequest) : List (String × Json) :=
  [("client_id", Json.str r.client_id),
   ("secret", Json.str r.secret),
   ("access_token", Json.str r.access_token)]
  ++ skipNoneField "options" (fun o => Json.obj o.toKVs) r.options

/-- GetInstitutionsOptions, from src/institutions.rs: the two lists are
skipped when empty, the optional flag is skipped when `None`. -/
structure GetInstitutionsOptions where
  products : List String
  routing_numbers : List String
  oauth : Option Bool
  include_optional_metadata : Bool

def GetInstitutionsOptions.toKVs (o : GetInstitutionsOptions) :
    List (String × Json) :=
  skipEmptyField "products" o.products
  ++ skipEmptyField "routing_numbers" o.routing_numbers
  ++ skipNoneField "oauth" Json.bool o.oauth
  ++ [("include_optional_metadata", Json.bool o.include_optional_metadata)]

/-- GetInstitutionsRequest, from src/institutions.rs. -/
structure GetInstitutionsRequest where
  client_id : String
  secret : String
  count : Int
  offset : Int
  country_codes : List String
  options : Option GetInstitutionsOptions

def GetInstitutionsRequest.toKVs (r : GetInstitutionsRequest) :
    List (String × Json) :=
  [("client_id", Json.str r.client_id),
   ("secret", Json.str r.secret),
   ("count", Json.num r.count),
   ("offset", Json.num r.offset),
   ("country_codes", serializeStrList r.country_codes)]
  ++ skipNoneField "options" (fun o => Json.obj o.toKVs) r.options

/-- GetInstitutionByIdOptions, from src/institutions.rs. -/
structure GetInstitutionByIdOptions where
  include_optional_metadata : Bool
  include_status : Bool

def GetInstitutionByIdOptions.toKVs (o : GetInstitutionByIdOptions) :
    List (String × Json) :=
  [("include_optional_metadata", Json.bool o.include_optional_metadata),
   ("include_status", Json.bool o.include_status)]

/-- GetInstitutionByIdRequest, from src/institutions.rs. -/
structure GetInstitutionByIdRequest where
  client_id : String
  secret : String
  institution_id : String
  country_codes : List String
  options : Option GetInstitutionByIdOptions

def GetInstitutionByIdRequest.toKVs (r : GetInstitutionByIdRequest) :
    List (String × Json) :=
  [("client_id", Json.str r.client_id),
   ("secret", Json.str r.secret),
   ("institution_id", Json.str r.institution_id),
   ("country_codes", serializeStrList r.country_codes)]
  ++ skipNoneField "options" (fun o => Json.obj o.toKVs) r.options

/-- SearchInstitutionsOptions, from src/institutions.rs. -/
structure SearchInstitutionsOptions where
  include_optional_metadata : Bool
  oauth : Option Bool

def SearchInstitutionsOptions.toKVs (o : SearchInstitutionsOptions) :
    List (String × Json) :=
  [("include_optional_metadata", Json.bool o.include_optional_metadata)]
  ++ skipNoneField "oauth" Json.bool o.oauth

/-- SearchInstitutionsRequest, from src/institutions.rs. -/
structure SearchInstitutionsRequest where
  client_id : String
  secret : String
  query : String
  country_codes : List String
  products : List String
  options : Option SearchInstitutionsOptions

def SearchInstitutionsRequest.toKVs (r : SearchInstitutionsRequest) :
    List (String × Json) :=
  [("client_id", Json.str r.client_id),
   ("secret", Json.str r.secret),
   ("query", Json.str r.query),
   ("country_codes", serializeStrList r.country_codes),
   ("products", serializeStrList r.products)]
  ++ skipNoneField "options" (fun o => Json.obj o.toKVs) r.options

/-- GetInvestmentTransactionsOptions, from src/investment_transactions.rs:
all three fields are skipped when `None`. -/
structure GetInvestmentTransactionsOptions where
  account_ids : Option (List String)
  count : Option Int
  offset : Option Int

def GetInvestmentTransactionsOptions.toKVs
    (o : GetInvestmentTransactionsOptions) : List (String × Json) :=
  skipNoneField "account_ids" serializeStrList o.account_ids
  ++ skipNoneField "count" Json.num o.count
  ++ skipNoneField "offset" Json.num o.offset

/-- GetInvestmentTransactionsRequest, from src/investment_transactions.rs.
A chrono `NaiveDate` serializes as its ISO-8601 date string; the embedded
field holds that string. -/
structure GetInvestmentTransactionsRequest where
  client_id : String
  secret : String
  access_token : String
  start_date : String
  end_date : String
  options : Option GetInvestmentTransactionsOptions

def GetInvestmentTransactionsRequest.toKVs
    (r : GetInvestmentTransactionsRequest) : List (String × Json) :=
  [("client_id", Json.str r.client_id),
   ("secret", Json.str r.secret),
   ("access_token", Json.str r.access_token),
   ("start_date", Json.str r.start_date),
   ("end_date", Json.str r.end_date)]
  ++ skipNoneField "options" (fun o => Json.obj o.toKVs) r.options

/-- GetItemRequest, from src/item.rs. -/
structure GetItemRequest where
  client_id : String
  secret : String
  access_token : String

def GetItemRequest.toKVs (r : GetItemRequest) : List (String × Json) :=
  [("client_id", Json.str r.client_id),
   ("secret", Json.str r.secret),
   ("access_token", Json.str r.access_token)]

/-- RemoveItemRequest, from src/item.rs. -/
structure RemoveItemRequest where
  client_id : String
  secret : String
  access_token : String

def RemoveItemRequest.toKVs (r : RemoveItemRequest) : List (String × Json) :=
  [("client_id", Json.str r.client_id),
   ("secret", Json.str r.secret),
   ("access_token", Json.str r.access_token)]

/-- UpdateItemWebhookRequest, from src/item.rs. -/
structure UpdateItemWebhookRequest where
  client_id : String
  secret : String
  access_token : String
  webhook : String

def UpdateItemWebhookRequest.toKVs (r : UpdateItemWebhookRequest) :
    List (String × Json) :=
  [("client_id", Json.str r.client_id),
   ("secret", Json.str r.secret),
   ("access_token", Json.str r.access_token),
   ("webhook", Json.str r.webhook)]

/-- InvalidateAccessTokenRequest, from src/item.rs. -/
structure InvalidateAccessTokenRequest where
  client_id : String
  secret : String
  access_token : String

def InvalidateAccessTokenRequest.toKVs (r : InvalidateAccessTokenRequest) :
    List (String × Json) :=
  [("client_id", Json.str r.client_id),
   ("secret", Json.str r.secret),
   ("access_token", Json.str r.access_token)]

/-- CreatePublicTokenRequest, from src/item.rs. -/
structure CreatePublicTokenRequest where
  client_id : String
  secret : String
  access_token : String

def CreatePublicTokenRequest.toKVs (r : CreatePublicTokenRequest) :
    List (String × Json) :=
  [("client_id", Json.str r.client_id),
   ("secret", Json.str r.secret),
   ("access_token", Json.str r.access_token)]

/-- ExchangePublicTokenRequest, from src/item.rs. -/
structure ExchangePublicTokenRequest where
  client_id : String
  secret : String
  public_token : String

def ExchangePublicTokenRequest.toKVs (r : ExchangePublicTokenRequest) :
    List (String × Json) :=
  [("client_id", Json.str r.client_id),
   ("secret", Json.str r.secret),
   ("public_token", Json.str r.public_token)]

/-- GetLiabilitiesOptions, from src/liabilities.rs. -/
structure GetLiabilitiesOptions where
  account_ids : List String

def GetLiabilitiesOptions.toKVs (o : GetLiabilitiesOptions) :
    List (String × Json) :=
  [("account_ids", serializeStrList o.account_ids)]

/-- GetLiabilitiesRequest, from src/liabilities.rs. -/
structure GetLiabilitiesRequest where
  client_id : String
  secret : String
  access_token : String
  options : Option GetLiabilitiesOptions

def GetLiabilitiesRequest.toKVs (r : GetLiabilitiesRequest) :
    List (String × Json) :=
  [("client_id", Json.str r.client_id),
   ("secret", Json.str r.secret),
   ("access_token", Json.str r.access_token)]
  ++ skipNoneField "options" (fun o => Json.obj o.toKVs) r.options

/-- LinkTokenUser, from src/link_token.rs: every field but the first is
skipped when `None`; the two chrono `DateTime<Utc>` fields serialize as
ISO-8601 strings and are embedded as those strings. -/
structure LinkTokenUser where
  client_user_id : String
  legal_name : Option String
  phone_number : Option String
  phone_number_verified_time : Option String
  email_address : Option String
  email_address_verified_time : Option String
  ssn : Option String
  date_of_birth : Option String

def LinkTokenUser.toKVs (u : LinkTokenUser) : List (String × Json) :=
  [("client_user_id", Json.str u.client_user_id)]
  ++ skipNoneField "legal_name" Json.str u.legal_name
  ++ skipNoneField "phone_number" Json.str u.phone_number
  ++ skipNoneField "phone_number_verified_time" Json.str
       u.phone_number_verified_time
  ++ skipNoneField "email_address" Json.str u.email_address
  ++ skipNoneField "email_address_verified_time" Json.str
       u.email_address_verified_time
  ++ skipNoneField "ssn" Json.str u.ssn
  ++ skipNoneField "date_of_birth" Json.str u.date_of_birth

/-- Serialize the `HashMap<&str, HashMap<&str, Vec<&str>>>` account filters
as a JSON object of objects of string arrays (embedded as association
lists). -/
def serializeAccountFilters (m : List (String × List (String × List String))) :
    Json :=
  Json.obj (m.map (fun kv =>
    (kv.1, Json.obj (kv.2.map (fun kv2 => (kv2.1, serializeStrList kv2.2))))))

/-- CreateLinkTokenRequest, from src/link_token.rs. -/
structure CreateLinkTokenRequest where
  client_id : String
  secret : String
  client_name : String
  language : String
  country_codes : List String
  user : LinkTokenUser
  products : Option (List String)
  webhook : Option String
  link_customization_name : Option String
  account_filters : Option (List (String × List (String × List String)))
  redirect_uri : Option String
  android_package_name : Option String

def CreateLinkTokenRequest.toKVs (r : CreateLinkTokenRequest) :
    List (String × Json) :=
  [("client_id", Json.str r.client_id),
   ("secret", Json.str r.secret),
   ("client_name", Json.str r.client_name),
   ("language", Json.str r.language),
   ("country_codes", serializeStrList r.country_codes),
   ("user", Json.obj r.user.toKVs)]
  ++ skipNoneField "products" serializeStrList r.products
  ++ skipNoneField "webhook" Json.str r.webhook
  ++ skipNoneField "link_customization_name" Json.str r.link_customization_name
  ++ skipNoneField "account_filters" serializeAccountFilters r.account_filters
  ++ skipNoneField "redirect_uri" Json.str r.redirect_uri
  ++ skipNoneField "android_package_name" Json.str r.android_package_name

/-- GetLinkTokenRequest, from src/link_token.rs. -/
structure GetLinkTokenRequest where
  client_id : String
  secret : String
  link_token : String

def GetLinkTokenRequest.toKVs (r : GetLinkTokenRequest) :
    List (String × Json) :=
  [("client_id", Json.str r.client_id),
   ("secret", Json.str r.secret),
   ("link_token", Json.str r.link_token)]

/-- CreateProcessorTokenRequest, from src/processor.rs. -/
structure CreateProcessorTokenRequest where
  client_id : String
  secret : String
  access_token : String
  account_id : String
  processor : String

def CreateProcessorTokenRequest.toKVs (r : CreateProcessorTokenRequest) :
    List (String × Json) :=
  [("client_id", Json.str r.client_id),
   ("secret", Json.str r.secret),
   ("access_token", Json.str r.access_token),
   ("account_id", Json.str r.account_id),
   ("processor", Json.str r.processor)]

/-- CreateSandboxPublicTokenRequest, from src/sandbox.rs. -/
structure CreateSandboxPublicTokenRequest where
  client_id : String
  secret : String
  institution_id : String
  initial_products : List String

def CreateSandboxPublicTokenRequest.toKVs
    (r : CreateSandboxPublicTokenRequest) : List (String × Json) :=
  [("client_id", Json.str r.client_id),
   ("secret", Json.str r.secret),
   ("institution_id", Json.str r.institution_id),
   ("initial_products", serializeStrList r.initial_products)]

/-- ResetSandboxItemRequest, from src/sandbox.rs. -/
structure ResetSandboxItemRequest where
  client_id : String
  secret : String
  access_token : String

def ResetSandboxItemRequest.toKVs (r : ResetSandboxItemRequest) :
    List (String × Json) :=
  [("client_id", Json.str r.client_id),
   ("secret", Json.str r.secret),
   ("access_token", Json.str r.access_token)]

/-- SetSandboxItemVerificationStatusRequest, from src/sandbox.rs. -/
structure SetSandboxItemVerificationStatusRequest where
  client_id : String
  secret : String
  access_token : String
  account_id : String
  verification_status : String

def SetSandboxItemVerificationStatusRequest.toKVs
    (r : SetSandboxItemVerificationStatusRequest) : List (String × Json) :=
  [("client_id", Json.str r.client_id),
   ("secret", Json.str r.secret),
   ("access_token", Json.str r.access_token),
   ("account_id", Json.str r.account_id),
   ("verification_status", Json.str r.verification_status)]

/-- FireWebhookRequest, from src/sandbox.rs. -/
structure FireWebhookRequest where
  client_id : String
  secret : String
  access_token : String
  webhook_code : String

def FireWebhookRequest.toKVs (r : FireWebhookRequest) :
    List (String × Json) :=
  [("client_id", Json.str r.client_id),
   ("secret", Json.str r.secret),
   ("access_token", Json.str r.access_token),
   ("webhook_code", Json.str r.webhook_code)]

/-- GetTransactionsOptions, from src/transactions.rs: no skip attributes, so
a `None` account_ids serializes as an explicit null. -/
structure GetTransactionsOptions where
  account_ids : Option (List String)
  count : Int
  offset : Int

def GetTransactionsOptions.toKVs (o : GetTransactionsOptions) :
    List (String × Json) :=
  [("account_ids", serializeOptStrList o.account_ids),
   ("count", Json.num o.count),
   ("offset", Json.num o.offset)]

/-- GetTransactionsRequest, from src/transactions.rs: the options field is
skipped when `None`; the chrono `NaiveDate` fields serialize as ISO-8601
date strings and are embedded as those strings. -/
structure GetTransactionsRequest where
  client_id : String
  secret : String
  access_token : String
  start_date : String
  end_date : String
  options : Option GetTransactionsOptions

def GetTransactionsRequest.toKVs (r : GetTransactionsRequest) :
    List (String × Json) :=
  [("client_id", Json.str r.client_id),
   ("secret", Json.str r.secret),
   ("access_token", Json.str r.access_token),
   ("start_date", Json.str r.start_date),
   ("end_date", Json.str r.end_date)]
  ++ skipNoneField "options" (fun o => Json.obj o.toKVs) r.options

/-- SyncTransactionsRequest, from src/transactions.rs: the cursor field has
no skip attribute, so a `None` cursor serializes as an explicit null; count
is a `u8`, embedded as a `Nat` (it only flows through serialization). -/
structure SyncTransactionsRequest where
  client_id : String
  secret : String
  access_token : String
  cursor : Option String
  count : Nat

def SyncTransactionsRequest.toKVs (r : SyncTransactionsRequest) :
    List (String × Json) :=
  [("client_id", Json.str r.client_id),
   ("secret", Json.str r.secret),
   ("access_token", Json.str r.access_token),
   ("cursor", serializeOptStr r.cursor),
   ("count", Json.num (Int.ofNat r.count))]

/-- RefreshTransactionsRequest, from src/transactions.rs. -/
structure RefreshTransactionsRequest where
  client_id : String
  secret : String
  access_token : String

def RefreshTransactionsRequest.toKVs (r : RefreshTransactionsRequest) :
    List (String × Json) :=
  [("client_id", Json.str r.client_id),
   ("secret", Json.str r.secret),
   ("access_token", Json.str r.access_token)]

/-- GetWebhookVerificationKeyRequest, from src/webhooks.rs. -/
structure GetWebhookVerificationKeyRequest where
  client_id : String
  secret : String
  key_id : String

def GetWebhookVerificationKeyRequest.toKVs
    (r : GetWebhookVerificationKeyRequest) : List (String × Json) :=
  [("client_id", Json.str r.client_id),
   ("secret", Json.str r.secret),
   ("key_id", Json.str r.key_id)]

/-- The relative endpoint path constants passed to send_request by the
library's own wrapper methods, one per endpoint method across all modules. -/
def library_endpoints : List String :=
  ["accounts/balance/get", "accounts/get", "auth/get", "categories/get",
   "deposit_switch/get", "deposit_switch/create", "investments/holdings/get",
   "identity/get", "institutions/get_by_id", "institutions/get",
   "institutions/search", "investments/transactions/get", "item/get",
   "item/remove", "item/webhook/update", "item/access_token/invalidate",
   "item/public_token/create", "item/public_token/exchange",
   "liabilities/get", "link/token/create", "link/token/get",
   "processor/token/create", "sandbox/public_token/create",
   "sandbox/item/reset_login", "sandbox/item/set_verification_status",
   "sandbox/item/fire_webhook", "transactions/sync", "transactions/get",
   "transactions/refresh", "webhook_verification_key/get"]

/-- Rust `str::to_lowercase` as applied in from_env; on the ASCII strings at
issue it lowercases each character. -/
def rustToLowercase (s : String) : String :=
  String.mk (s.data.map Char.toLower)

/-- The environment-selector parse inside from_env (src/client.rs lines
41-48): the variable's value is lowercased, then matched against the three
UPPERCASE literals; the fallthrough arm is the `panic!`, modelled as `none`. -/
def parse_plaid_environment (s : String) : Option Environment :=
  match rustToLowercase s with
  | "SANDBOX" => some Environment.sandbox
  | "DEVELOPMENT" => some Environment.development
  | "PRODUCTION" => some Environment.production
  | _ => none

/-- from_env, from src/client.rs: reads PLAID_ENVIRONMENT, PLAID_CLIENT_ID and
PLAID_SECRET from the process environment (modelled as an explicit lookup
function); a missing variable (`expect`) or an unmatched environment value
(`panic!`) is a panic, modelled as `none`. -/
def Client.from_env (getEnvVar : String → Option String) : Option Client := do
  let env_str ← getEnvVar "PLAID_ENVIRONMENT"
  let environment ← parse_plaid_environment env_str
  let client_id ← getEnvVar "PLAID_CLIENT_ID"
  let secret ← getEnvVar "PLAID_SECRET"
  pure { client_id, secret, environment }

/-! Helper lemmas. -/

theorem toNat_ofNat_lt {m : Nat} (h : m < 55296) : (Char.ofNat m).toNat = m := by
  unfold Char.ofNat
  rw [dif_pos (Or.inl h)]
  simp [Char.ofNatAux, Char.toNat, UInt32.toNat]

theorem toLower_ne_upper (c u : Char) (h65 : 65 ≤ u.toNat) (h90 : u.toNat ≤ 90) :
    Char.toLower c ≠ u := by
  intro h
  unfold Char.toLower at h
  by_cases hc : c.toNat ≥ 65 ∧ c.toNat ≤ 90
  · rw [if_pos hc] at h
    have h2 := congrArg Char.toNat h
    rw [toNat_ofNat_lt (by omega)] at h2
    omega
  · rw [if_neg hc] at h
    apply hc
    rw [h]
    exact ⟨h65, h90⟩

theorem rustToLowercase_ne_upper_head (s : String) (u : Char) (rest : List Char)
    (h65 : 65 ≤ u.toNat) (h90 : u.toNat ≤ 90) :
    rustToLowercase s ≠ String.mk (u :: rest) := by
  intro h
  unfold rustToLowercase at h
  have hdata : s.data.map Char.toLower = u :: rest := congrArg String.data h
  match hs : s.data with
  | [] => rw [hs] at hdata; simp at hdata
  | c :: cs =>
      rw [hs] at hdata
      simp at hdata
      exact toLower_ne_upper c u h65 h90 hdata.1

theorem parse_plaid_environment_eq_none (s : String) :
    parse_plaid_environment s = none := by
  have h1 : rustToLowercase s ≠ "SANDBOX" :=
    rustToLowercase_ne_upper_head s 'S' ['A','N','D','B','O','X']
      (by decide) (by decide)
  have h2 : rustToLowercase s ≠ "DEVELOPMENT" :=
    rustToLowercase_ne_upper_head s 'D' ['E','V','E','L','O','P','M','E','N','T']
      (by decide) (by decide)
  have h3 : rustToLowercase s ≠ "PRODUCTION" :=
    rustToLowercase_ne_upper_head s 'P' ['R','O','D','U','C','T','I','O','N']
      (by decide) (by decide)
  unfold parse_plaid_environment
  split
  · next heq => exact absurd heq h1
  · next heq => exact absurd heq h2
  · next heq => exact absurd heq h3
  · rfl

/-! Theorems settling the claims. -/

/-- Claim C1: when the HTTP response status is exactly 200 and the body
deserializes as the expected response type, send_request returns Ok with the
decoded value, and the Ok branch is taken if and only if the status is 200. -/
theorem send_request_ok_iff_status_200 {T U : Type} (c : Client) (url : String)
    (req : T) (resp : HttpResponse) (decodeU : Json → Option U) (u : U)
    (hjoin : (urlJoin c.get_host url).isSome)
    (hdec : decodeU resp.body = some u) :
    c.send_request url req (Except.ok resp) decodeU = some (Except.ok u)
      ↔ resp.status = 200 := by
  unfold Client.send_request
  obtain ⟨full, hfull⟩ := Option.isSome_iff_exists.mp hjoin
  rw [hfull]
  by_cases hs : resp.status = 200
  · simp [hs, hdec]
  · simp only [if_neg hs]
    constructor
    · intro h
      cases hE : ErrorResponse.deserialize resp.body <;> rw [hE] at h <;>
        simp at h
    · intro h
      exact absurd h hs

/-- Witness for the claim C1 theorem at a concrete client, endpoint and
200-status response. -/
theorem send_request_ok_iff_status_200_witness :
    (Client.mk "cid" "sec" Environment.sandbox).send_request "categories/get"
        (Json.obj []) (Except.ok (HttpResponse.mk 200 (Json.obj [])))
        (fun j => some j)
      = some (Except.ok (Json.obj [])) :=
  (send_request_ok_iff_status_200 (Client.mk "cid" "sec" Environment.sandbox)
    "categories/get" (Json.obj []) (HttpResponse.mk 200 (Json.obj []))
    (fun j => some j) (Json.obj []) (by decide) rfl).mpr rfl

/-- Claim C2: when the HTTP response status is not 200 and the body
deserializes as the fixed error envelope, send_request returns an API-kind
error whose fields equal the decoded body's fields and whose status_code is
the observed HTTP status. -/
theorem send_request_non_200_plaid_error {T U : Type} (c : Client)
    (url : String) (req : T) (resp : HttpResponse) (decodeU : Json → Option U)
    (er : ErrorResponse)
    (hjoin : (urlJoin c.get_host url).isSome)
    (hs : resp.status ≠ 200)
    (hdec : ErrorResponse.deserialize resp.body = some er) :
    c.send_request url req (Except.ok resp) decodeU
      = some (Except.error (Error.plaid
          { request_id := er.request_id
            error_type := er.error_type
            error_code := er.error_code
            error_message := er.error_message
            display_message := er.display_message
            status_code := resp.status })) := by
  unfold Client.send_request
  obtain ⟨full, hfull⟩ := Option.isSome_iff_exists.mp hjoin
  rw [hfull]
  simp [hs, hdec]

/-- Witness for the claim C2 theorem at a concrete 400-status response whose
body matches the error envelope. -/
theorem send_request_non_200_plaid_error_witness :
    (Client.mk "cid" "sec" Environment.sandbox).send_request "auth/get"
        (Json.obj []) (Except.ok (HttpResponse.mk 400 (Json.obj
          [("request_id", Json.str "r"), ("error_type", Json.str "t"),
           ("error_code", Json.str "c"), ("error_message", Json.str "m"),
           ("display_message", Json.null)])))
        (fun j => some j)
      = some (Except.error (Error.plaid
          (PlaidError.mk "t" "c" "m" none "r" 400))) :=
  send_request_non_200_plaid_error (Client.mk "cid" "sec" Environment.sandbox)
    "auth/get" (Json.obj []) (HttpResponse.mk 400 (Json.obj
      [("request_id", Json.str "r"), ("error_type", Json.str "t"),
       ("error_code", Json.str "c"), ("error_message", Json.str "m"),
       ("display_message", Json.null)]))
    (fun j => some j) (ErrorResponse.mk "r" "t" "c" "m" none)
    (by decide) (by decide) rfl

/-- Claim C3: the claim says from_env accepts the three environment names
case-insensitively and constructs a Client for some accepted casing of each.
The code lowercases the variable's value and then matches it against the
three UPPERCASE literals, so no value can ever match: from_env reaches a
fatal abort (`expect` or the match fallthrough) for every process
environment, contradicting its own doc comment that PLAID_ENVIRONMENT "must
be set to SANDBOX, DEVELOPMENT or PRODUCTION". -/
theorem from_env_rejects_every_environment_value
    (getEnvVar : String → Option String) :
    Client.from_env getEnvVar = none := by
  unfold Client.from_env
  cases h : getEnvVar "PLAID_ENVIRONMENT" with
  | none => rfl
  | some s => simp [h, parse_plaid_environment_eq_none s]

/-- Claim C7: the environment-to-host mapping is total (each of the three variants
has a fixed host), exhaustive (every client's host is one of the three fixed
URLs) and exclusive (the three fixed URLs are pairwise distinct). -/
theorem get_host_total_exhaustive_exclusive :
    (∀ cid sec : String,
        (Client.mk cid sec Environment.sandbox).get_host
            = "https://sandbox.plaid.com/"
        ∧ (Client.mk cid sec Environment.development).get_host
            = "https://development.plaid.com/"
        ∧ (Client.mk cid sec Environment.production).get_host
            = "https://production.plaid.com/")
    ∧ (∀ c : Client,
        c.get_host = "https://sandbox.plaid.com/"
        ∨ c.get_host = "https://development.plaid.com/"
        ∨ c.get_host = "https://production.plaid.com/")
    ∧ ("https://sandbox.plaid.com/" ≠ "https://development.plaid.com/"
        ∧ "https://sandbox.plaid.com/" ≠ "https://production.plaid.com/"
        ∧ "https://development.plaid.com/" ≠ "https://production.plaid.com/") := by
  refine ⟨fun cid sec => ⟨rfl, rfl, rfl⟩, fun c => ?_, by decide, by decide, by decide⟩
  cases h : c.environment with
  | sandbox => exact Or.inl (by simp [Client.get_host, h])
  | development => exact Or.inr (Or.inl (by simp [Client.get_host, h]))
  | production => exact Or.inr (Or.inr (by simp [Client.get_host, h]))

/-- Claim C8: send_request never mutates the dispatcher's state: in the
state-passing form of the call, the client's client_id, secret and
environment are unchanged whatever the transport outcome and decoders, and
the client left behind answers every further call exactly as the original
client does. -/
theorem send_request_preserves_client_state {T U : Type} (c : Client)
    (url : String) (req : T) (transport : Except ReqwestError HttpResponse)
    (decodeU : Json → Option U) :
    (c.send_request_st url req transport decodeU).2.client_id = c.client_id
    ∧ (c.send_request_st url req transport decodeU).2.secret = c.secret
    ∧ (c.send_request_st url req transport decodeU).2.environment
        = c.environment
    ∧ ∀ (T' U' : Type) (url' : String) (req' : T')
        (transport' : Except ReqwestError HttpResponse)
        (decodeU' : Json → Option U'),
        (c.send_request_st url req transport decodeU).2.send_request
            url' req' transport' decodeU'
          = c.send_request url' req' transport' decodeU' :=
  ⟨rfl, rfl, rfl, fun _ _ _ _ _ _ => rfl⟩

/-- Claim C4 counterexample: the categories request struct has no fields at
all, so its serialized body is the empty JSON object and embeds neither the
client_id nor the secret credential field. -/
theorem get_categories_request_omits_credentials :
    "client_id" ∉ keysOf (GetCategoriesRequest.toKVs GetCategoriesRequest.mk)
    ∧ "secret" ∉ keysOf (GetCategoriesRequest.toKVs GetCategoriesRequest.mk) := by
  constructor <;> simp [GetCategoriesRequest.toKVs, keysOf]

/-- Claim C4 as amended: for every endpoint method of the client except the
categories lookup, the serialized request body embeds the credential pair:
every request struct other than GetCategoriesRequest carries a client_id and
a secret field, whatever the remaining field values. -/
theorem request_bodies_embed_credentials_except_categories :
    (∀ r : GetBalancesRequest, "client_id" ∈ keysOf r.toKVs ∧ "secret" ∈ keysOf r.toKVs)
    ∧ (∀ r : GetAccountsRequest, "client_id" ∈ keysOf r.toKVs ∧ "secret" ∈ keysOf r.toKVs)
    ∧ (∀ r : GetAuthRequest, "client_id" ∈ keysOf r.toKVs ∧ "secret" ∈ keysOf r.toKVs)
    ∧ (∀ r : GetDepositSwitchRequest, "client_id" ∈ keysOf r.toKVs ∧ "secret" ∈ keysOf r.toKVs)
    ∧ (∀ r : CreateDepositSwitchRequest, "client_id" ∈ keysOf r.toKVs ∧ "secret" ∈ keysOf r.toKVs)
    ∧ (∀ r : GetHoldingsRequest, "client_id" ∈ keysOf r.toKVs ∧ "secret" ∈ keysOf r.toKVs)
    ∧ (∀ r : GetIdentityRequest, "client_id" ∈ keysOf r.toKVs ∧ "secret" ∈ keysOf r.toKVs)
    ∧ (∀ r : GetInstitutionsRequest, "client_id" ∈ keysOf r.toKVs ∧ "secret" ∈ keysOf r.toKVs)
    ∧ (∀ r : GetInstitutionByIdRequest, "client_id" ∈ keysOf r.toKVs ∧ "secret" ∈ keysOf r.toKVs)
    ∧ (∀ r : SearchInstitutionsRequest, "client_id" ∈ keysOf r.toKVs ∧ "secret" ∈ keysOf r.toKVs)
    ∧ (∀ r : GetInvestmentTransactionsRequest, "client_id" ∈ keysOf r.toKVs ∧ "secret" ∈ keysOf r.toKVs)
    ∧ (∀ r : GetItemRequest, "client_id" ∈ keysOf r.toKVs ∧ "secret" ∈ keysOf r.toKVs)
    ∧ (∀ r : RemoveItemRequest, "client_id" ∈ keysOf r.toKVs ∧ "secret" ∈ keysOf r.toKVs)
    ∧ (∀ r : UpdateItemWebhookRequest, "client_id" ∈ keysOf r.toKVs ∧ "secret" ∈ keysOf r.toKVs)
    ∧ (∀ r : InvalidateAccessTokenRequest, "client_id" ∈ keysOf r.toKVs ∧ "secret" ∈ keysOf r.toKVs)
    ∧ (∀ r : CreatePublicTokenRequest, "client_id" ∈ keysOf r.toKVs ∧ "secret" ∈ keysOf r.toKVs)
    ∧ (∀ r : ExchangePublicTokenRequest, "client_id" ∈ keysOf r.toKVs ∧ "secret" ∈ keysOf r.toKVs)
    ∧ (∀ r : GetLiabilitiesRequest, "client_id" ∈ keysOf r.toKVs ∧ "secret" ∈ keysOf r.toKVs)
    ∧ (∀ r : CreateLinkTokenRequest, "client_id" ∈ keysOf r.toKVs ∧ "secret" ∈ keysOf r.toKVs)
    ∧ (∀ r : GetLinkTokenRequest, "client_id" ∈ keysOf r.toKVs ∧ "secret" ∈ keysOf r.toKVs)
    ∧ (∀ r : CreateProcessorTokenRequest, "client_id" ∈ keysOf r.toKVs ∧ "secret" ∈ keysOf r.toKVs)
    ∧ (∀ r : CreateSandboxPublicTokenRequest, "client_id" ∈ keysOf r.toKVs ∧ "secret" ∈ keysOf r.toKVs)
    ∧ (∀ r : ResetSandboxItemRequest, "client_id" ∈ keysOf r.toKVs ∧ "secret" ∈ keysOf r.toKVs)
    ∧ (∀ r : SetSandboxItemVerificationStatusRequest, "client_id" ∈ keysOf r.toKVs ∧ "secret" ∈ keysOf r.toKVs)
    ∧ (∀ r : FireWebhookRequest, "client_id" ∈ keysOf r.toKVs ∧ "secret" ∈ keysOf r.toKVs)
    ∧ (∀ r : GetTransactionsRequest, "client_id" ∈ keysOf r.toKVs ∧ "secret" ∈ keysOf r.toKVs)
    ∧ (∀ r : SyncTransactionsRequest, "client_id" ∈ keysOf r.toKVs ∧ "secret" ∈ keysOf r.toKVs)
    ∧ (∀ r : RefreshTransactionsRequest, "client_id" ∈ keysOf r.toKVs ∧ "secret" ∈ keysOf r.toKVs)
    ∧ (∀ r : GetWebhookVerificationKeyRequest, "client_id" ∈ keysOf r.toKVs ∧ "secret" ∈ keysOf r.toKVs) := by
  refine ⟨?_, ?_, ?_, ?_, ?_, ?_, ?_, ?_, ?_, ?_, ?_, ?_, ?_, ?_, ?_, ?_, ?_, ?_, ?_, ?_, ?_, ?_, ?_, ?_, ?_, ?_, ?_, ?_, ?_⟩ <;>
    · intro r
      constructor <;> simp [keysOf, GetBalancesRequest.toKVs, GetAccountsRequest.toKVs, GetAuthRequest.toKVs, GetDepositSwitchRequest.toKVs, CreateDepositSwitchRequest.toKVs, GetHoldingsRequest.toKVs, GetIdentityRequest.toKVs, GetInstitutionsRequest.toKVs, GetInstitutionByIdRequest.toKVs, SearchInstitutionsRequest.toKVs, GetInvestmentTransactionsRequest.toKVs, GetItemRequest.toKVs, RemoveItemRequest.toKVs, UpdateItemWebhookRequest.toKVs, InvalidateAccessTokenRequest.toKVs, CreatePublicTokenRequest.toKVs, ExchangePublicTokenRequest.toKVs, GetLiabilitiesRequest.toKVs, CreateLinkTokenRequest.toKVs, GetLinkTokenRequest.toKVs, CreateProcessorTokenRequest.toKVs, CreateSandboxPublicTokenRequest.toKVs, ResetSandboxItemRequest.toKVs, SetSandboxItemVerificationStatusRequest.toKVs, FireWebhookRequest.toKVs, GetTransactionsRequest.toKVs, SyncTransactionsRequest.toKVs, RefreshTransactionsRequest.toKVs, GetWebhookVerificationKeyRequest.toKVs]

/-- Claim C5: when the transport itself fails, send_request returns the
transport error wrapped as Error.request, for every decoder — so no body is
decoded and no success value is produced. -/
theorem send_request_transport_error {T U : Type} (c : Client) (url : String)
    (req : T) (e : ReqwestError) (decodeU : Json → Option U)
    (hjoin : (urlJoin c.get_host url).isSome) :
    c.send_request url req (Except.error e) decodeU
      = some (Except.error (Error.request e)) := by
  unfold Client.send_request
  obtain ⟨full, hfull⟩ := Option.isSome_iff_exists.mp hjoin
  rw [hfull]

/-- Witness for the claim C5 theorem at a concrete failing transport. -/
theorem send_request_transport_error_witness :
    (Client.mk "cid" "sec" Environment.production).send_request "item/get"
        (Json.obj []) (Except.error (ReqwestError.mk "connection refused"))
        (fun j => some j)
      = some (Except.error
          (Error.request (ReqwestError.mk "connection refused"))) :=
  send_request_transport_error (Client.mk "cid" "sec" Environment.production)
    "item/get" (Json.obj []) (ReqwestError.mk "connection refused")
    (fun j => some j) (by decide)

/-- Claim C6: every completed call produces exactly one of a success value or
an error (an Except value is exclusively one of the two), and a body that
fails to deserialize — as the success type on status 200, or as the error
envelope on any other status — yields the decode-failure transport error
rather than a defaulted value. -/
theorem send_request_exactly_one_outcome {T U : Type} (c : Client)
    (url : String) (req : T) (transport : Except ReqwestError HttpResponse)
    (decodeU : Json → Option U)
    (hjoin : (urlJoin c.get_host url).isSome) :
    (∃ r, c.send_request url req transport decodeU = some r
       ∧ ((∃ u, r = Except.ok u) ↔ ¬ ∃ e, r = Except.error e))
    ∧ (∀ resp, transport = Except.ok resp → resp.status = 200 →
         decodeU resp.body = none →
         c.send_request url req transport decodeU
           = some (Except.error (Error.request decodeFailure)))
    ∧ (∀ resp, transport = Except.ok resp → resp.status ≠ 200 →
         ErrorResponse.deserialize resp.body = none →
         c.send_request url req transport decodeU
           = some (Except.error (Error.request decodeFailure))) := by
  obtain ⟨full, hfull⟩ := Option.isSome_iff_exists.mp hjoin
  refine ⟨?_, ?_, ?_⟩
  · unfold Client.send_request
    rw [hfull]
    dsimp only
    cases transport with
    | error e => exact ⟨Except.error (Error.request e), rfl, by simp⟩
    | ok resp =>
      dsimp only
      by_cases hs : resp.status = 200
      · rw [if_pos hs]
        cases hd : decodeU resp.body with
        | none => exact ⟨Except.error (Error.request decodeFailure), rfl, by simp⟩
        | some u => exact ⟨Except.ok u, rfl, by simp⟩
      · rw [if_neg hs]
        cases hd : ErrorResponse.deserialize resp.body with
        | none => exact ⟨Except.error (Error.request decodeFailure), rfl, by simp⟩
        | some er => exact ⟨_, rfl, by simp⟩
  · intro resp htr hs hd
    subst htr
    unfold Client.send_request
    rw [hfull]
    simp [hs, hd]
  · intro resp htr hs hd
    subst htr
    unfold Client.send_request
    rw [hfull]
    simp [hs, hd]

/-- Witness for the claim C6 theorem: a 500-status response whose body
matches neither schema yields the decode-failure transport error. -/
theorem send_request_exactly_one_outcome_witness :
    (Client.mk "cid" "sec" Environment.sandbox).send_request "categories/get"
        (Json.obj []) (Except.ok (HttpResponse.mk 500 Json.null))
        (fun _ => (none : Option Json))
      = some (Except.error (Error.request decodeFailure)) :=
  (send_request_exactly_one_outcome (Client.mk "cid" "sec" Environment.sandbox)
    "categories/get" (Json.obj []) (Except.ok (HttpResponse.mk 500 Json.null))
    (fun _ => (none : Option Json)) (by decide)).2.2
    (HttpResponse.mk 500 Json.null) rfl (by decide) rfl

theorem send_request_isSome_of_plain {T U : Type} (c : Client) (url : String)
    (req : T) (transport : Except ReqwestError HttpResponse)
    (decodeU : Json → Option U) (h : isPlainRelPath url = true) :
    (c.send_request url req transport decodeU).isSome := by
  unfold Client.send_request urlJoin
  rw [if_pos h]
  dsimp only
  cases transport with
  | error e => rfl
  | ok resp =>
    dsimp only
    by_cases hs : resp.status = 200
    · rw [if_pos hs]
      cases decodeU resp.body <;> rfl
    · rw [if_neg hs]
      cases ErrorResponse.deserialize resp.body <;> rfl

/-- Claim C9: send_request unwraps the join of the base host with the
endpoint, so for some endpoint strings — such as the scheme-relative
reference of two slashes, which rust-url rejects — the call aborts
(modelled as `none`) instead of returning an error; but for every endpoint
constant used by the library's own wrapper methods the join succeeds by
appending the path to the host, and the aborting branch is unreachable. -/
theorem send_request_url_join_unwrap {T U : Type} :
    (∀ (c : Client) (req : T) (transport : Except ReqwestError HttpResponse)
        (decodeU : Json → Option U),
        c.send_request "//" req transport decodeU = none)
    ∧ (∀ (c : Client) (url : String), url ∈ library_endpoints →
        urlJoin c.get_host url = some (c.get_host ++ url)
        ∧ ∀ (req : T) (transport : Except ReqwestError HttpResponse)
            (decodeU : Json → Option U),
            (c.send_request url req transport decodeU).isSome) := by
  constructor
  · intro c req transport decodeU
    unfold Client.send_request urlJoin
    have h : ¬ (isPlainRelPath "//" = true) := by decide
    rw [if_neg h]
  · intro c url hmem
    have hp : isPlainRelPath url = true := by
      have hall : library_endpoints.all isPlainRelPath = true := by decide
      exact List.all_eq_true.mp hall url hmem
    constructor
    · unfold urlJoin
      rw [if_pos hp]
    · intro req transport decodeU
      exact send_request_isSome_of_plain c url req transport decodeU hp

/-- Witness for the claim C9 theorem: the two-slash endpoint aborts, while
the categories endpoint constant always completes with a result. -/
theorem send_request_url_join_unwrap_witness :
    (Client.mk "cid" "sec" Environment.sandbox).send_request "//"
        (Json.obj []) (Except.error (ReqwestError.mk "e")) (fun j => some j)
      = none
    ∧ ((Client.mk "cid" "sec" Environment.sandbox).send_request
        "categories/get" (Json.obj []) (Except.error (ReqwestError.mk "e"))
        (fun j => some j)).isSome :=
  ⟨send_request_url_join_unwrap.1 (Client.mk "cid" "sec" Environment.sandbox)
      (Json.obj []) (Except.error (ReqwestError.mk "e")) (fun j => some j),
   (send_request_url_join_unwrap.2 (Client.mk "cid" "sec" Environment.sandbox)
      "categories/get" (by decide)).2 (Json.obj [])
      (Except.error (ReqwestError.mk "e")) (fun j => some j)⟩

/-- Claim C10: a request struct whose options field carries the
skip-when-none attribute serializes a `None` options value with no "options"
key at all (GetTransactionsRequest, GetInstitutionsRequest), whereas
SyncTransactionsRequest always serializes a "cursor" key, whose value for a
`None` cursor is an explicit null. -/
theorem optional_field_serialization :
    (∀ r : GetTransactionsRequest, r.options = none →
        "options" ∉ keysOf r.toKVs)
    ∧ (∀ r : GetInstitutionsRequest, r.options = none →
        "options" ∉ keysOf r.toKVs)
    ∧ (∀ r : SyncTransactionsRequest,
        "cursor" ∈ keysOf r.toKVs
        ∧ (r.cursor = none → r.toKVs.lookup "cursor" = some Json.null)) := by
  refine ⟨?_, ?_, ?_⟩
  · intro r h
    simp [GetTransactionsRequest.toKVs, keysOf, h, skipNoneField]
  · intro r h
    simp [GetInstitutionsRequest.toKVs, keysOf, h, skipNoneField]
  · intro r
    constructor
    · simp [SyncTransactionsRequest.toKVs, keysOf]
    · intro h
      simp [SyncTransactionsRequest.toKVs, h, serializeOptStr, List.lookup]

/-- Witness for the claim C10 theorem at concrete requests with absent
options and an absent cursor. -/
theorem optional_field_serialization_witness :
    "options" ∉ keysOf (GetTransactionsRequest.toKVs
        (GetTransactionsRequest.mk "cid" "sec" "tok" "2021-01-01" "2021-02-01"
          none))
    ∧ "options" ∉ keysOf (GetInstitutionsRequest.toKVs
        (GetInstitutionsRequest.mk "cid" "sec" 10 0 ["US"] none))
    ∧ (SyncTransactionsRequest.toKVs
        (SyncTransactionsRequest.mk "cid" "sec" "tok" none 50)).lookup "cursor"
      = some Json.null :=
  ⟨optional_field_serialization.1
      (GetTransactionsRequest.mk "cid" "sec" "tok" "2021-01-01" "2021-02-01"
        none) rfl,
   optional_field_serialization.2.1
      (GetInstitutionsRequest.mk "cid" "sec" 10 0 ["US"] none) rfl,
   (optional_field_serialization.2.2
      (SyncTransactionsRequest.mk "cid" "sec" "tok" none 50)).2 rfl⟩

end Plaid
